import Mathlib

/-!
Formal model of the V50 automated-calculation repository.

The repository drives LS-DYNA simulations to estimate the ballistic limit
velocity (V50) of layered armor configurations:

* `config.py`       — module-level constants (modelled by the list of defined
                      attribute names, and by the numeric parameters record);
* `v50_solver.py`   — `lambert_jonas_func` and the search controller
                      `find_v50_for_config` (expansion, satellite sampling,
                      bisection, filtering, fitting, result records);
* `lsdyna_runner.py`— `run_simulation` return paths;
* `main.py`         — the per-configuration driver loop with its
                      `critical_failure` fallback rows.

Velocities and residual velocities are modelled as exact rationals (ℚ),
i.e. the idealized real-arithmetic semantics of the Python float code; the
Lambert-Jonas curve, which involves non-integer powers, is modelled over ℝ.
Each external simulation is an oracle `ℕ → SimStep` giving the outcome of
the k-th run, and the `curve_fit` call is an oracle on the filtered point
set; everything else is transcribed from the Python source.
-/

namespace V50

/-- A Python value appearing in the dictionaries the repository builds. -/
inductive PyVal where
  | str (s : String)
  | boolean (b : Bool)
  | num (q : ℚ)
  | int (n : ℤ)
  | strs (l : List String)
  | pts (l : List (ℚ × ℚ))
  deriving DecidableEq, Repr

/-- A Python dict with string keys, as an association list. -/
abbrev PyDict := List (String × PyVal)

/-- Dictionary lookup (`d[key]` / `d.get(key)`). -/
def lookupKey : PyDict → String → Option PyVal
  | [], _ => none
  | (k, v) :: rest, key => if k = key then some v else lookupKey rest key

/-- `key in d` for a Python dict. -/
def hasKey (d : PyDict) (key : String) : Bool :=
  (lookupKey d key).isSome

/-- Python truthiness of a dict: `bool(d)` is `True` iff `d` is non-empty. -/
def pyTruthy (d : PyDict) : Bool :=
  !d.isEmpty

/-! ### The shipped `config.py` module (attribute names)

`config.py` consists of `import os` and a sequence of module-level
assignments.  The attribute names an `config.NAME` access can resolve are
exactly the assigned names (plus the imported module `os`). -/

/-- The module-level names defined by the shipped `config.py`, in source
order (`os` is the imported module object). -/
def configDefinedNames : List String :=
  [ "os"
  , "LS_DYNA_PATH", "LSPREPOST_PATH", "LSPREPOST_PYTHON_PATH"
  , "TEMPLATE_DIR"
  , "BASE_WORKDIR", "RESULTS_CSV_FILE"
  , "K_FILE_TEMPLATES", "PARAMETRIC_CONFIG"
  , "SIMULATION_TIME", "OUTPUT_INTERVAL", "LSDYNA_NCPU", "LSDYNA_MEMORY"
  , "INITIAL_VELOCITY", "VELOCITY_STEP", "MAX_VELOCITY", "MIN_VELOCITY"
  , "CONVERGENCE_TOLERANCE"
  , "THICKNESS_CONFIGS"
  , "PROJECTILE_PART_ID", "PROJECTILE_MATERIAL_ID"
  , "LAMBERT_JONAS_BOUNDS"
  , "LSPREPOST_CONFIG", "OUTPUT_FILES"
  , "BINARY_SEARCH_MAX_ITER", "MIN_DATA_POINTS", "MAX_SIMULATION_FAILURES" ]

/-- The `THICKNESS_CONFIGS` list from `config.py` (five thickness tuples). -/
def THICKNESS_CONFIGS : List (ℚ × ℚ × ℚ × ℚ) :=
  [ (2, 2, 2, 2), (2.5, 2.5, 2.5, 2.5), (3, 3, 3, 3)
  , (3.5, 3.5, 3.5, 3.5), (4, 4, 4, 4) ]

/-- A read of the `config` module performed by `find_v50_for_config`:
either a plain attribute access `config.NAME` (raises `AttributeError`
when `NAME` is undefined) or `getattr(config, NAME, default)` (never
raises). -/
inductive ConfigRead where
  | plain (nm : String)
  | getattrOr (nm : String)
  deriving DecidableEq, Repr

/-- An event of `find_v50_for_config`, in execution order: a config read
or a simulation run (`prepare_k_file` + `run_simulation`). -/
inductive SolverEvent where
  | read (r : ConfigRead)
  | sim
  deriving DecidableEq, Repr

/-- The events of `find_v50_for_config` from entry up to (and including)
its first simulation call, in source order: `config.BASE_WORKDIR`
(line 41), `config.INITIAL_VELOCITY` (line 68),
`getattr(config, 'GROWTH_FACTOR', 1.0)` (line 69), then the expansion-loop
condition reads `config.MAX_TOTAL_RUNS` (line 72) before the first
`run_simulation` call (line 79). -/
def find_v50_prelude : List SolverEvent :=
  [ .read (.plain "BASE_WORKDIR")
  , .read (.plain "INITIAL_VELOCITY")
  , .read (.getattrOr "GROWTH_FACTOR")
  , .read (.plain "MAX_TOTAL_RUNS")
  , .sim ]

/-- Execute a list of solver events against the shipped `config` module:
returns the name raised by the first failing plain attribute read (or
`none`), together with how many simulation runs happened before that. -/
def preludeOutcome : List SolverEvent → ℕ → Option String × ℕ
  | [], sims => (none, sims)
  | .sim :: rest, sims => preludeOutcome rest (sims + 1)
  | .read (.plain nm) :: rest, sims =>
      if nm ∈ configDefinedNames then preludeOutcome rest sims else (some nm, sims)
  | .read (.getattrOr _) :: rest, sims => preludeOutcome rest sims

/-- The status `main` records for one configuration: the `try` block calls
`find_v50_for_config`; an escaping exception is caught and recorded as a
`critical_failure` row (main.py lines 77–86). -/
def mainRowStatus : Option String × ℕ → String
  | (some _, _) => "critical_failure"
  | (none, _) => "completed"

/-- The per-configuration statuses `main` appends over the shipped
`THICKNESS_CONFIGS`. -/
def mainStatuses : List String :=
  THICKNESS_CONFIGS.map (fun _ => mainRowStatus (preludeOutcome find_v50_prelude 0))

/-- Total simulation runs performed by `main` over all configurations in
the shipped repository. -/
def mainTotalSims : ℕ :=
  (THICKNESS_CONFIGS.map (fun _ => (preludeOutcome find_v50_prelude 0).2)).sum

/-! ### `lsdyna_runner.run_simulation` return paths -/

/-- Environment conditions that select the execution path of
`run_simulation` (lsdyna_runner.py lines 129–240). -/
structure SimEnv where
  exe_exists : Bool
  raise_msg : Option String
  timed_out : Bool
  return_code : ℤ
  output_complete : Bool
  output_files : List String
  missing_files : List String
  elapsed : ℚ
  stderr : String
  deriving DecidableEq, Repr

/-- The dict `run_simulation` returns on each execution path, transcribed
from lsdyna_runner.py: missing executable (lines 144–151), exception
inside the `try` block (lines 234–240), timeout (lines 188–196), exit
code 0 with complete output (lines 203–213), exit code 0 with incomplete
output (lines 214–222), nonzero exit code (lines 223–232). -/
def run_simulation (env : SimEnv) : PyDict :=
  if env.exe_exists = false then
    [("success", .boolean false), ("reason", .str "lsdyna_not_found"), ("duration", .num 0)]
  else
    match env.raise_msg with
    | some m =>
        [("success", .boolean false), ("reason", .str ("exception: " ++ m)), ("duration", .num 0)]
    | none =>
        if env.timed_out then
          [("success", .boolean false), ("reason", .str "timeout"), ("duration", .num env.elapsed)]
        else if env.return_code = 0 then
          if env.output_complete then
            [("success", .boolean true), ("duration", .num env.elapsed),
             ("return_code", .int 0), ("output_files", .strs env.output_files)]
          else
            [("success", .boolean false), ("reason", .str "incomplete_output"),
             ("duration", .num env.elapsed), ("missing_files", .strs env.missing_files)]
        else
          [("success", .boolean false), ("reason", .str ("exit_code_" ++ toString env.return_code)),
           ("duration", .num env.elapsed), ("stderr", .str env.stderr)]

/-! ### The search controller `find_v50_for_config` (v50_solver.py)

The controller reads a family of `config` attributes that the shipped
`config.py` does not define (see `configDefinedNames`); the record
`Params` collects the values the code expects under those names, so that
the algorithm itself can be studied independently of the shipped module. -/

/-- The configuration values `find_v50_for_config` reads. -/
structure Params where
  INITIAL_VELOCITY : ℚ
  GROWTH_FACTOR : ℚ
  EXPONENTIAL_STEP : ℚ
  MAX_TOTAL_RUNS : ℕ
  VR_FILTER_THRESHOLD : ℚ
  EXTRA_PENETRATION_SAMPLES : ℕ
  MAX_BISECTION_ITERATIONS : ℕ
  CONVERGENCE_TOLERANCE : ℚ
  MIN_DATAPOINTS_FOR_FIT : ℕ
  deriving DecidableEq, Repr

/-- `multiplier = config.GROWTH_FACTOR if getattr(config,'GROWTH_FACTOR',1.0) > 1.0 else None`
(v50_solver.py line 69). -/
def multiplier (P : Params) : Option ℚ :=
  if 1 < P.GROWTH_FACTOR then some P.GROWTH_FACTOR else none

/-- Outcome of one simulation run, as the solver sees it: `fail` models a
falsy `sim_success`, and `result is_pen vr` models a truthy `sim_success`
followed by `result_parser.get_residual_velocity` returning
`(is_pen, vr)`. -/
inductive SimStep where
  | fail
  | result (is_pen : Bool) (vr : ℚ)
  deriving DecidableEq, Repr

/-- `round(x, 6)`: the velocity key used for the sampling `tried` set
(v50_solver.py line 131).  Python rounds floats half-to-even; on exact
half-microunit ties this rational model rounds half-up instead, a
difference none of the theorems depend on. -/
def round6 (q : ℚ) : ℚ :=
  ((round (q * 1000000) : ℤ) : ℚ) / 1000000

/-- Count of penetration points whose residual velocity passes the
`0 < vr <= VR_FILTER_THRESHOLD` filter (v50_solver.py line 103). -/
def validCount (P : Params) (pts : List (ℚ × ℚ)) : ℕ :=
  (pts.filter (fun p => decide (0 < p.2 ∧ p.2 ≤ P.VR_FILTER_THRESHOLD))).length

/-- State of the expansion loop (phase 1, v50_solver.py lines 59–74):
`fail_hits` counts how often a simulation-failure branch was taken. -/
structure ExpSt where
  v_low : ℚ
  current_v : ℚ
  run_count : ℕ
  points : List (ℚ × ℚ)
  fail_hits : ℕ
  deriving DecidableEq, Repr

/-- Initial solver state: `v_low = 0.0`, `current_v = INITIAL_VELOCITY`,
no runs, no points (v50_solver.py lines 60–68). -/
def expInit (P : Params) : ExpSt :=
  ⟨0, P.INITIAL_VELOCITY, 0, [], 0⟩

/-- The expansion loop (v50_solver.py lines 72–178, with the sampling
sub-loop factored out, see `sampleLoop`).  Returns the final state and
`some v_high` when a penetration ended the loop, `none` when the loop
ended with `v_high` still infinite (run ceiling reached, or a simulation
failure after the first run).  Every iteration increments `run_count`, so
fuel `MAX_TOTAL_RUNS + 1 - run_count` always suffices: at fuel 0 the
`while` condition is already false and returning the state coincides with
the loop exit. -/
def expandLoop (P : Params) (oracle : ℕ → SimStep) : ℕ → ExpSt → ExpSt × Option ℚ
  | 0, s => (s, none)
  | fuel + 1, s =>
    if s.run_count < P.MAX_TOTAL_RUNS then
      let rc := s.run_count + 1
      match oracle rc with
      | .fail =>
          if rc = 1 then
            expandLoop P oracle fuel
              { s with run_count := rc, current_v := s.current_v + P.EXPONENTIAL_STEP,
                       fail_hits := s.fail_hits + 1 }
          else
            ({ s with run_count := rc, fail_hits := s.fail_hits + 1 }, none)
      | .result true vr =>
          let pts := if 0 < vr ∧ vr ≤ P.VR_FILTER_THRESHOLD
                     then s.points ++ [(s.current_v, vr)] else s.points
          ({ s with run_count := rc, points := pts }, some s.current_v)
      | .result false _ =>
          let nv := match multiplier P with
                    | some m => s.current_v * m
                    | none => s.current_v + P.EXPONENTIAL_STEP
          expandLoop P oracle fuel
            { s with v_low := s.current_v, current_v := nv, run_count := rc }
    else (s, none)

/-- State of the satellite-sampling loop (v50_solver.py lines 100–168). -/
structure SampSt where
  v_low : ℚ
  v_high : ℚ
  points : List (ℚ × ℚ)
  run_count : ℕ
  samples_collected : ℕ
  down_v : ℚ
  up_v : ℚ
  tried : List ℚ
  toggle : ℕ
  fail_hits : ℕ
  deriving DecidableEq, Repr

/-- The satellite-sampling loop (v50_solver.py lines 113–168), driven by
fuel because — unlike the other two loops — its iterations do not all
increment `run_count`, and the loop genuinely need not terminate.  The
`Bool` is `true` when the `while` condition became false (normal exit)
and `false` when the fuel ran out first.  The body follows the source:
toggle selects the direction (even — down, odd — up); a down candidate at
or below `v_low` skips with a second toggle increment; a velocity key
already in `tried` advances that direction's position; otherwise the
candidate is simulated, a valid penetration is recorded, and the
direction's position advances. -/
def sampleLoop (P : Params) (oracle : ℕ → SimStep) (tgt : ℕ) (sstep : ℚ) :
    ℕ → SampSt → SampSt × Bool
  | 0, s => (s, false)
  | fuel + 1, s =>
    if s.samples_collected < tgt ∧ s.run_count < P.MAX_TOTAL_RUNS then
      if s.toggle % 2 = 0 then
        -- direction 'down'
        let s1 := { s with toggle := s.toggle + 1 }
        if s.down_v ≤ s.v_low then
          sampleLoop P oracle tgt sstep fuel { s1 with toggle := s1.toggle + 1 }
        else if round6 s.down_v ∈ s1.tried then
          sampleLoop P oracle tgt sstep fuel { s1 with down_v := s1.down_v - sstep }
        else
          let s2 := { s1 with tried := round6 s.down_v :: s1.tried,
                              run_count := s1.run_count + 1 }
          match oracle s2.run_count with
          | .fail =>
              sampleLoop P oracle tgt sstep fuel
                { s2 with fail_hits := s2.fail_hits + 1, down_v := s2.down_v - sstep }
          | .result is_pen vr =>
              let s3 := if is_pen ∧ 0 < vr ∧ vr ≤ P.VR_FILTER_THRESHOLD
                        then { s2 with points := s2.points ++ [(s.down_v, vr)],
                                       samples_collected := s2.samples_collected + 1 }
                        else s2
              sampleLoop P oracle tgt sstep fuel { s3 with down_v := s3.down_v - sstep }
      else
        -- direction 'up' (no lower-bound check)
        let s1 := { s with toggle := s.toggle + 1 }
        if round6 s.up_v ∈ s1.tried then
          sampleLoop P oracle tgt sstep fuel { s1 with up_v := s1.up_v + sstep }
        else
          let s2 := { s1 with tried := round6 s.up_v :: s1.tried,
                              run_count := s1.run_count + 1 }
          match oracle s2.run_count with
          | .fail =>
              sampleLoop P oracle tgt sstep fuel
                { s2 with fail_hits := s2.fail_hits + 1, up_v := s2.up_v + sstep }
          | .result is_pen vr =>
              let s3 := if is_pen ∧ 0 < vr ∧ vr ≤ P.VR_FILTER_THRESHOLD
                        then { s2 with points := s2.points ++ [(s.up_v, vr)],
                                       samples_collected := s2.samples_collected + 1 }
                        else s2
              sampleLoop P oracle tgt sstep fuel { s3 with up_v := s3.up_v + sstep }
    else (s, true)

/-- State of the bisection loop (v50_solver.py lines 186–221). -/
structure BiSt where
  v_low : ℚ
  v_high : ℚ
  points : List (ℚ × ℚ)
  run_count : ℕ
  iter : ℕ
  fail_hits : ℕ
  deriving DecidableEq, Repr

/-- One bisection trial (the body of the loop after the convergence
check, v50_solver.py lines 192–220): test the midpoint; on a failed
simulation shrink the side the midpoint lies closer to — since
`mid_v` *is* `(v_low + v_high) / 2` the comparison `mid_v > (v_low + v_high)/2`
is always false and the `v_low = mid_v` side is taken. -/
def bisectStep (P : Params) (oracle : ℕ → SimStep) (s : BiSt) : BiSt :=
  let rc := s.run_count + 1
  let it := s.iter + 1
  let mid := (s.v_low + s.v_high) / 2
  match oracle rc with
  | .fail =>
      if mid > (s.v_low + s.v_high) / 2 then
        { s with v_high := mid, run_count := rc, iter := it, fail_hits := s.fail_hits + 1 }
      else
        { s with v_low := mid, run_count := rc, iter := it, fail_hits := s.fail_hits + 1 }
  | .result true vr =>
      let pts := if 0 < vr ∧ vr ≤ P.VR_FILTER_THRESHOLD
                 then s.points ++ [(mid, vr)] else s.points
      { s with v_high := mid, points := pts, run_count := rc, iter := it }
  | .result false _ =>
      { s with v_low := mid, run_count := rc, iter := it }

/-- The bisection loop (v50_solver.py lines 187–221): runs while
`iter < MAX_BISECTION_ITERATIONS` and `run_count < MAX_TOTAL_RUNS`, and
stops as soon as `(v_high - v_low) < CONVERGENCE_TOLERANCE`.  Every
iteration increments `iter`, so fuel `MAX_BISECTION_ITERATIONS + 1 - iter`
always suffices: at fuel 0 the `while` condition is already false and
returning the state coincides with the loop exit. -/
def bisectLoop (P : Params) (oracle : ℕ → SimStep) : ℕ → BiSt → BiSt
  | 0, s => s
  | fuel + 1, s =>
    if s.iter < P.MAX_BISECTION_ITERATIONS ∧ s.run_count < P.MAX_TOTAL_RUNS then
      if s.v_high - s.v_low < P.CONVERGENCE_TOLERANCE then s
      else bisectLoop P oracle fuel (bisectStep P oracle s)
    else s

/-- Lexicographic order on `(impact, residual)` pairs: the order Python's
`sorted` uses on 2-tuples. -/
def lexLe (a b : ℚ × ℚ) : Prop :=
  a.1 < b.1 ∨ (a.1 = b.1 ∧ a.2 ≤ b.2)

instance : DecidableRel lexLe := fun a b => by
  unfold lexLe; infer_instance

/-- `sorted(list(set(penetration_points)))` (v50_solver.py line 228):
duplicate `(impact, residual)` *pairs* are removed, then the points are
sorted lexicographically. -/
def dedupSort (pts : List (ℚ × ℚ)) : List (ℚ × ℚ) :=
  List.insertionSort lexLe pts.dedup

/-- The pre-fit residual-velocity filter
`[p for p in penetration_points if p[1] > 0 and p[1] <= VR_FILTER_THRESHOLD]`
(v50_solver.py line 231). -/
def filterVr (P : Params) (pts : List (ℚ × ℚ)) : List (ℚ × ℚ) :=
  pts.filter (fun p => decide (0 < p.2 ∧ p.2 ≤ P.VR_FILTER_THRESHOLD))

/-- Terminal state of the search phases: either expansion never saw a
penetration, or the search finished with a bracket, run count and
accumulated points. -/
inductive SearchDone where
  | noPen (runs : ℕ)
  | done (v_low v_high : ℚ) (runs : ℕ) (pts : List (ℚ × ℚ))
  deriving DecidableEq, Repr

/-- Phases 1–2 of `find_v50_for_config`: expansion, then — if a
penetration was found — satellite sampling and bisection.  `none` models
the case where the sampling loop never exits (see the claim about
sampling termination). -/
def searchPart (P : Params) (oracle : ℕ → SimStep) (sampleFuel : ℕ) : Option SearchDone :=
  match expandLoop P oracle (P.MAX_TOTAL_RUNS + 1) (expInit P) with
  | (s, none) => some (.noPen s.run_count)
  | (s, some vhigh) =>
    let sstep := max 1 (P.EXPONENTIAL_STEP / 5)
    let s0 : SampSt :=
      ⟨s.v_low, vhigh, s.points, s.run_count, validCount P s.points,
       vhigh - sstep, vhigh + sstep, [round6 vhigh], 0, s.fail_hits⟩
    match sampleLoop P oracle P.EXTRA_PENETRATION_SAMPLES sstep sampleFuel s0 with
    | (_, false) => none
    | (t, true) =>
      let b := bisectLoop P oracle (P.MAX_BISECTION_ITERATIONS + 1)
        ⟨t.v_low, t.v_high, t.points, t.run_count, 0, t.fail_hits⟩
      some (.done b.v_low b.v_high b.run_count b.points)

/-- Outcome of the `curve_fit` call (v50_solver.py lines 257–264), which
this model treats as an oracle on the filtered point list:
`ok a p VBL rmse` models convergence, `runtimeError` the `RuntimeError`
branch, `otherError msg` the generic `except Exception` branch. -/
inductive FitOutcome where
  | ok (a p VBL rmse : ℚ)
  | runtimeError
  | otherError (msg : String)
  deriving DecidableEq, Repr

/-- The possible terminal results of `find_v50_for_config`, before being
rendered into a dict. -/
inductive SolveResult where
  | noPenetration (runs : ℕ)
  | insufficientData (v_low v_high : ℚ) (runs : ℕ) (pts : List (ℚ × ℚ))
  | fitSuccess (V50 a p rmse : ℚ) (v_low v_high : ℚ) (runs : ℕ) (pts : List (ℚ × ℚ))
  | fitFailed (v_low v_high : ℚ) (runs : ℕ) (pts : List (ℚ × ℚ))
  | fitError (msg : String) (v_low v_high : ℚ) (runs : ℕ) (pts : List (ℚ × ℚ))
  deriving DecidableEq, Repr

/-- Phases 3–4 of `find_v50_for_config` (v50_solver.py lines 224–308):
dedup + sort, the strict residual filter, the minimum-point check, then
the fit. -/
def fitStage (P : Params) (fitO : List (ℚ × ℚ) → FitOutcome) : SearchDone → SolveResult
  | .noPen runs => .noPenetration runs
  | .done lo hi runs pts =>
    let spts := dedupSort pts
    let filtered := filterVr P spts
    if filtered.length < P.MIN_DATAPOINTS_FOR_FIT then
      .insufficientData lo hi runs spts
    else
      match fitO filtered with
      | .ok a p vbl rmse => .fitSuccess vbl a p rmse lo hi runs spts
      | .runtimeError => .fitFailed lo hi runs spts
      | .otherError m => .fitError m lo hi runs spts

/-- The whole of `find_v50_for_config` as a value (up to record
rendering); `none` when the sampling loop diverges. -/
def solve (P : Params) (oracle : ℕ → SimStep) (fitO : List (ℚ × ℚ) → FitOutcome)
    (sampleFuel : ℕ) : Option SolveResult :=
  (searchPart P oracle sampleFuel).map (fitStage P fitO)

/-- The result dicts returned by `find_v50_for_config`, transcribed from
v50_solver.py: no penetration (line 182), insufficient data
(lines 236–243), success (lines 277–287), `RuntimeError` from the fit
(lines 291–298), any other fit exception (lines 301–308). -/
def renderResult : SolveResult → PyDict
  | .noPenetration runs =>
      [("status", .str "failed"),
       ("reason", .str "No penetration found in exponential search"),
       ("runs", .int runs)]
  | .insufficientData lo hi runs pts =>
      [("status", .str "failed"),
       ("reason", .str "Not enough data points for fitting"),
       ("v_low", .num lo), ("v_high", .num hi),
       ("runs", .int runs), ("points_used", .pts pts)]
  | .fitSuccess V50 a p rmse lo hi runs pts =>
      [("status", .str "success"),
       ("V50", .num V50), ("param_a", .num a), ("param_p", .num p),
       ("rmse", .num rmse),
       ("v_low", .num lo), ("v_high", .num hi),
       ("runs", .int runs), ("points_used", .pts pts)]
  | .fitFailed lo hi runs pts =>
      [("status", .str "failed"),
       ("reason", .str "Curve fitting failed"),
       ("v_low", .num lo), ("v_high", .num hi),
       ("runs", .int runs), ("points_used", .pts pts)]
  | .fitError msg lo hi runs pts =>
      [("status", .str "failed"),
       ("reason", .str msg),
       ("v_low", .num lo), ("v_high", .num hi),
       ("runs", .int runs), ("points_used", .pts pts)]

/-- `find_v50_for_config` end to end: search, fit, record. -/
def find_v50_run (P : Params) (oracle : ℕ → SimStep) (fitO : List (ℚ × ℚ) → FitOutcome)
    (sampleFuel : ℕ) : Option PyDict :=
  (solve P oracle fitO sampleFuel).map renderResult

/-- `min(x0, *xs)`: the smallest of a non-empty collection
(`Vi_data.min()`). -/
def listMin (x0 : ℚ) (xs : List ℚ) : ℚ :=
  xs.foldl min x0

/-- The dynamically clamped upper bound for `VBL`:
`min(config.FIT_BOUNDS['VBL'][1], Vi_data.min() * 0.99)`
(v50_solver.py line 250), over a non-empty velocity list `x0 :: xs`. -/
def vbl_upper_bound (staticUpper : ℚ) (x0 : ℚ) (xs : List ℚ) : ℚ :=
  min staticUpper (listMin x0 xs * (99 / 100))

/-- The Lambert-Jonas ballistic-limit curve (v50_solver.py lines 13–27):
`term = Vi**p - VBL**p`, then `np.where(term > 0, a * term**(1/p), 0)`.
Non-integer powers force a real-number model (`Real.rpow`); the
`np.where` guard is the conditional. -/
noncomputable def lambert_jonas_func (Vi a p VBL : ℝ) : ℝ :=
  let term := Vi ^ p - VBL ^ p
  if 0 < term then a * term ^ (1 / p) else 0

/-- The solver builds `sim_success` from the return value of
`run_simulation` used as a boolean, then consults the parser; the run
fails exactly when that boolean is falsy (v50_solver.py lines 79–92). -/
def outcomeOfRun (env : SimEnv) (parsed : Bool × ℚ) : SimStep :=
  if pyTruthy (run_simulation env) = false then .fail
  else .result parsed.1 parsed.2

/-- The oracle `find_v50_for_config` actually runs against: run `k`
executes `run_simulation` in environment `envs k` and parses `parses k`. -/
def solverOracle (envs : ℕ → SimEnv) (parses : ℕ → Bool × ℚ) : ℕ → SimStep :=
  fun k => outcomeOfRun (envs k) (parses k)

/-! ### Derived predicates and concrete scenario inputs -/

/-- The bracket handed over by the expansion phase is well-formed: when a
penetration velocity `v_high` was found, it lies strictly above the final
`v_low`. -/
def expBracketOK : ExpSt × Option ℚ → Prop
  | (_, none) => True
  | (s, some vhigh) => s.v_low < vhigh

/-- Direction of one bisection update, by observation outcome: a
non-penetration can only raise `v_low`, a penetration can only lower
`v_high`, and a failed simulation shrinks the bracket from below. -/
def bisectStepDir (P : Params) (oracle : ℕ → SimStep) (s : BiSt) : Prop :=
  match oracle (s.run_count + 1) with
  | .result false _ =>
      (bisectStep P oracle s).v_high = s.v_high ∧ s.v_low < (bisectStep P oracle s).v_low
  | .result true _ =>
      (bisectStep P oracle s).v_low = s.v_low ∧ (bisectStep P oracle s).v_high < s.v_high
  | .fail =>
      (bisectStep P oracle s).v_high = s.v_high ∧ s.v_low < (bisectStep P oracle s).v_low

/-- `⌈log2 q⌉` for a rational ratio `q`: the bound formula the spec uses
for bisection trials. -/
def ceilLog2Q (q : ℚ) : ℕ :=
  Nat.clog 2 ⌈q⌉₊

/-- `⌊log2 q⌋` for a rational ratio `q ≥ 1`. -/
def floorLog2Q (q : ℚ) : ℕ :=
  Nat.log 2 ⌊q⌋₊

/-- Scenario parameters: initial velocity 300, growth factor 1 (so the
linear step is used), step 1, generous budgets.  With these, expansion
finds `v_low = 300`, `v_high = 301` and the sampling step is
`max(1, 1/5) = 1`, so the first downward candidate already sits at
`v_low`. -/
def P4 : Params := ⟨300, 1, 1, 100, 100, 3, 20, 5, 5⟩

/-- Outcomes for the sampling-divergence scenario: run 1 does not
penetrate, run 2 penetrates with residual 50, any later run would not
penetrate. -/
def oracle4 : ℕ → SimStep := fun k =>
  if k = 1 then .result false 0 else if k = 2 then .result true 50 else .result false 0

/-- Generic parameters for bracket/bisection scenarios (tolerance 5). -/
def P5 : Params := ⟨300, 2, 50, 100, 100, 3, 20, 5, 5⟩

/-- Parameters with convergence tolerance 10, for the bisection-bound
counterexample on the bracket `[0, 160]`. -/
def P5c : Params := ⟨300, 2, 50, 100, 100, 3, 20, 10, 5⟩

/-- An oracle that never fails and never penetrates. -/
def oracleNP : ℕ → SimStep := fun _ => .result false 0

/-- Parameters with a run ceiling of 3: expansion exhausts the budget
without a penetration when driven by `oracleNP`. -/
def P6 : Params := ⟨300, 2, 50, 3, 100, 3, 20, 5, 5⟩

/-- A fit oracle (its value is irrelevant on the failure paths). -/
def fitO0 : List (ℚ × ℚ) → FitOutcome := fun _ => .runtimeError

/-- Parameters with a run ceiling of 3 and a 5-point fit minimum, for the
insufficient-data scenario. -/
def P7 : Params := ⟨300, 2, 50, 3, 100, 3, 20, 5, 5⟩

/-- Outcomes for the insufficient-data scenario: no penetration at run 1,
penetration with residual 50 at run 2, no penetration afterwards. -/
def oracle7 : ℕ → SimStep := fun k =>
  if k = 1 then .result false 0 else if k = 2 then .result true 50 else .result false 0

/-- The record returned when expansion finds no penetration after 3 runs. -/
def noPenRec6 : PyDict := renderResult (.noPenetration 3)

/-- The record returned in the insufficient-data scenario. -/
def insufRec7 : PyDict := renderResult (.insufficientData 300 600 3 [(600, 50)])

/-! ### Lemmas -/

/-- Every execution path of `run_simulation` returns a non-empty dict. -/
theorem run_simulation_nonempty (env : SimEnv) : (run_simulation env).isEmpty = false := by
  unfold run_simulation
  rcases env with ⟨ex, rm, t, rc, oc, ofl, mf, el, se⟩
  cases ex <;> cases rm <;> dsimp only <;> split_ifs <;> rfl

/-- Used as a boolean, the value `run_simulation` returns is always
truthy. -/
theorem run_simulation_truthy (env : SimEnv) : pyTruthy (run_simulation env) = true := by
  unfold pyTruthy
  rw [run_simulation_nonempty]
  rfl

/-- The oracle built from `run_simulation` plus the parser never yields a
failed run. -/
theorem solverOracle_ne_fail (envs : ℕ → SimEnv) (parses : ℕ → Bool × ℚ) (k : ℕ) :
    solverOracle envs parses k ≠ SimStep.fail := by
  unfold solverOracle outcomeOfRun
  rw [run_simulation_truthy]
  simp

/-- One bisection trial increments the iteration counter. -/
theorem bisectStep_iter (P : Params) (oracle : ℕ → SimStep) (s : BiSt) :
    (bisectStep P oracle s).iter = s.iter + 1 := by
  dsimp only [bisectStep]
  cases h : oracle (s.run_count + 1) with
  | fail => dsimp only; split_ifs <;> rfl
  | result b vr => cases b <;> rfl

/-- One bisection trial increments the run counter. -/
theorem bisectStep_run (P : Params) (oracle : ℕ → SimStep) (s : BiSt) :
    (bisectStep P oracle s).run_count = s.run_count + 1 := by
  dsimp only [bisectStep]
  cases h : oracle (s.run_count + 1) with
  | fail => dsimp only; split_ifs <;> rfl
  | result b vr => cases b <;> rfl

/-- Every bisection trial — penetration, non-penetration, or failed
simulation — halves the bracket width exactly. -/
theorem bisectStep_width (P : Params) (oracle : ℕ → SimStep) (s : BiSt) :
    (bisectStep P oracle s).v_high - (bisectStep P oracle s).v_low
      = (s.v_high - s.v_low) / 2 := by
  dsimp only [bisectStep]
  cases h : oracle (s.run_count + 1) with
  | fail =>
    dsimp only
    rw [if_neg (lt_irrefl _)]
    dsimp only
    ring
  | result b vr => cases b <;> dsimp only <;> ring

/-- One bisection trial never widens the bracket, keeps it nonempty, and
moves each endpoint only in its allowed direction. -/
theorem bisectStep_bracket (P : Params) (oracle : ℕ → SimStep) (s : BiSt)
    (hb : s.v_low < s.v_high) :
    s.v_low ≤ (bisectStep P oracle s).v_low
  ∧ (bisectStep P oracle s).v_high ≤ s.v_high
  ∧ (bisectStep P oracle s).v_low < (bisectStep P oracle s).v_high
  ∧ bisectStepDir P oracle s := by
  have hmidl : s.v_low < (s.v_low + s.v_high) / 2 := by linarith
  have hmidh : (s.v_low + s.v_high) / 2 < s.v_high := by linarith
  dsimp only [bisectStep, bisectStepDir]
  cases h : oracle (s.run_count + 1) with
  | fail =>
    dsimp only
    rw [if_neg (lt_irrefl _)]
    exact ⟨hmidl.le, le_refl _, hmidh, rfl, hmidl⟩
  | result b vr =>
    cases b
    · exact ⟨hmidl.le, le_refl _, hmidh, rfl, hmidl⟩
    · exact ⟨le_refl _, hmidh.le, hmidl, rfl, hmidh⟩

/-- The bisection loop never decreases the iteration counter. -/
theorem bisectLoop_iter_ge (P : Params) (oracle : ℕ → SimStep) :
    ∀ fuel (s : BiSt), s.iter ≤ (bisectLoop P oracle fuel s).iter := by
  intro fuel
  induction fuel with
  | zero => intro s; exact le_refl _
  | succ f ih =>
    intro s
    rw [bisectLoop]
    split_ifs with h1 h2
    · exact le_refl _
    · calc s.iter ≤ (bisectStep P oracle s).iter := by rw [bisectStep_iter]; omega
        _ ≤ _ := ih _
    · exact le_refl _

/-- The bisection loop performs at most `MAX_BISECTION_ITERATIONS`
trials: the final iteration count never exceeds
`max s.iter MAX_BISECTION_ITERATIONS`. -/
theorem bisectLoop_iter_le_max (P : Params) (oracle : ℕ → SimStep) :
    ∀ fuel (s : BiSt),
      (bisectLoop P oracle fuel s).iter ≤ max s.iter P.MAX_BISECTION_ITERATIONS := by
  intro fuel
  induction fuel with
  | zero => intro s; exact le_max_left _ _
  | succ f ih =>
    intro s
    rw [bisectLoop]
    split_ifs with h1 h2
    · exact le_max_left _ _
    · calc (bisectLoop P oracle f (bisectStep P oracle s)).iter
          ≤ max (bisectStep P oracle s).iter P.MAX_BISECTION_ITERATIONS := ih _
        _ ≤ max s.iter P.MAX_BISECTION_ITERATIONS := by
            rw [bisectStep_iter]
            have : s.iter + 1 ≤ P.MAX_BISECTION_ITERATIONS := h1.1
            omega
    · exact le_max_left _ _

/-- Upper bound on bisection trials: once the bracket width drops below
`2 ^ f` tolerances, at most `f` further trials happen (with or without
simulation failures, since every trial halves the width). -/
theorem bisectLoop_iter_upper (P : Params) (oracle : ℕ → SimStep) :
    ∀ fuel (f : ℕ) (s : BiSt),
      s.v_high - s.v_low < 2 ^ f * P.CONVERGENCE_TOLERANCE →
      (bisectLoop P oracle fuel s).iter ≤ s.iter + f := by
  intro fuel
  induction fuel with
  | zero => intro f s _; exact Nat.le_add_right _ _
  | succ fl ih =>
    intro f s hw
    rw [bisectLoop]
    split_ifs with h1 h2
    · exact Nat.le_add_right _ _
    · match f with
      | 0 =>
        exfalso
        rw [pow_zero, one_mul] at hw
        exact h2 hw
      | g + 1 =>
        have hw' : (bisectStep P oracle s).v_high - (bisectStep P oracle s).v_low
            < 2 ^ g * P.CONVERGENCE_TOLERANCE := by
          rw [bisectStep_width]
          rw [pow_succ] at hw
          linarith
        calc (bisectLoop P oracle fl (bisectStep P oracle s)).iter
            ≤ (bisectStep P oracle s).iter + g := ih g _ hw'
          _ = s.iter + (g + 1) := by rw [bisectStep_iter]; omega
    · exact Nat.le_add_right _ _

/-- Lower bound on bisection trials: while `2 ^ f` half-tolerances still
fit in twice the bracket width and the iteration and run budgets allow,
at least `f` trials happen. -/
theorem bisectLoop_iter_lower (P : Params) (oracle : ℕ → SimStep)
    (htol : 0 < P.CONVERGENCE_TOLERANCE) :
    ∀ fuel (f : ℕ) (s : BiSt),
      P.CONVERGENCE_TOLERANCE * 2 ^ f ≤ 2 * (s.v_high - s.v_low) →
      f ≤ fuel →
      s.iter + f ≤ P.MAX_BISECTION_ITERATIONS →
      s.run_count + f ≤ P.MAX_TOTAL_RUNS →
      s.iter + f ≤ (bisectLoop P oracle fuel s).iter := by
  intro fuel
  induction fuel with
  | zero =>
    intro f s _ hf _ _
    interval_cases f
    exact le_refl _
  | succ fl ih =>
    intro f s hw hf hiter hrun
    match f with
    | 0 => simpa using bisectLoop_iter_ge P oracle (fl + 1) s
    | g + 1 =>
      have hpow : (1 : ℚ) ≤ 2 ^ g := one_le_pow₀ (by norm_num : (1:ℚ) ≤ 2)
      have hwide : P.CONVERGENCE_TOLERANCE * 2 ^ g ≤ s.v_high - s.v_low := by
        have : P.CONVERGENCE_TOLERANCE * 2 ^ g * 2 ≤ 2 * (s.v_high - s.v_low) := by
          calc P.CONVERGENCE_TOLERANCE * 2 ^ g * 2
              = P.CONVERGENCE_TOLERANCE * 2 ^ (g + 1) := by ring
            _ ≤ 2 * (s.v_high - s.v_low) := hw
        linarith
      have hnc : ¬ s.v_high - s.v_low < P.CONVERGENCE_TOLERANCE := by
        rw [not_lt]
        calc P.CONVERGENCE_TOLERANCE = P.CONVERGENCE_TOLERANCE * 1 := (mul_one _).symm
          _ ≤ P.CONVERGENCE_TOLERANCE * 2 ^ g :=
              mul_le_mul_of_nonneg_left hpow htol.le
          _ ≤ s.v_high - s.v_low := hwide
      rw [bisectLoop]
      rw [if_pos ⟨by omega, by omega⟩, if_neg hnc]
      have hw2 : P.CONVERGENCE_TOLERANCE * 2 ^ g
          ≤ 2 * ((bisectStep P oracle s).v_high - (bisectStep P oracle s).v_low) := by
        rw [bisectStep_width]
        linarith
      have := ih g (bisectStep P oracle s) hw2 (by omega)
        (by rw [bisectStep_iter]; omega) (by rw [bisectStep_run]; omega)
      rw [bisectStep_iter] at this
      omega

/-- The bisection loop never widens the bracket and keeps it nonempty. -/
theorem bisectLoop_bracket (P : Params) (oracle : ℕ → SimStep) :
    ∀ fuel (s : BiSt), s.v_low < s.v_high →
      s.v_low ≤ (bisectLoop P oracle fuel s).v_low
    ∧ (bisectLoop P oracle fuel s).v_high ≤ s.v_high
    ∧ (bisectLoop P oracle fuel s).v_low < (bisectLoop P oracle fuel s).v_high := by
  intro fuel
  induction fuel with
  | zero => intro s hb; exact ⟨le_refl _, le_refl _, hb⟩
  | succ f ih =>
    intro s hb
    rw [bisectLoop]
    split_ifs with h1 h2
    · exact ⟨le_refl _, le_refl _, hb⟩
    · obtain ⟨hl, hh, hlt, _⟩ := bisectStep_bracket P oracle s hb
      obtain ⟨hl2, hh2, hlt2⟩ := ih (bisectStep P oracle s) hlt
      exact ⟨hl.trans hl2, hh2.trans hh, hlt2⟩
    · exact ⟨le_refl _, le_refl _, hb⟩

/-- A configured multiplier is strictly greater than 1 (the code only
selects multiplicative growth when `GROWTH_FACTOR > 1`). -/
theorem multiplier_gt_one (P : Params) (m : ℚ) (h : multiplier P = some m) : 1 < m := by
  unfold multiplier at h
  split_ifs at h with h1
  injection h with h2
  rwa [h2] at h1

/-- Expansion invariant: starting from a positive candidate velocity
strictly above `v_low`, the expansion loop only raises `v_low`, keeps the
candidate positive and strictly above `v_low`, and hands over a
well-formed bracket whenever it finds a penetration. -/
theorem expandLoop_inv (P : Params) (oracle : ℕ → SimStep)
    (hstep : 0 < P.EXPONENTIAL_STEP) :
    ∀ fuel (s : ExpSt), 0 < s.current_v → s.v_low < s.current_v →
      s.v_low ≤ (expandLoop P oracle fuel s).1.v_low
    ∧ 0 < (expandLoop P oracle fuel s).1.current_v
    ∧ (expandLoop P oracle fuel s).1.v_low < (expandLoop P oracle fuel s).1.current_v
    ∧ expBracketOK (expandLoop P oracle fuel s) := by
  intro fuel
  induction fuel with
  | zero => intro s h0 hlt; exact ⟨le_refl _, h0, hlt, trivial⟩
  | succ f ih =>
    intro s h0 hlt
    dsimp only [expandLoop]
    by_cases hrun : s.run_count < P.MAX_TOTAL_RUNS
    · rw [if_pos hrun]
      cases ho : oracle (s.run_count + 1) with
      | fail =>
        dsimp only
        by_cases h1 : s.run_count + 1 = 1
        · rw [if_pos h1]
          exact ih _ (add_pos h0 hstep) (hlt.trans (lt_add_of_pos_right _ hstep))
        · rw [if_neg h1]
          exact ⟨le_refl _, h0, hlt, trivial⟩
      | result ispen vr =>
        cases ispen
        · dsimp only
          cases hm : multiplier P with
          | none =>
            dsimp only
            have := ih ⟨s.current_v, s.current_v + P.EXPONENTIAL_STEP,
              s.run_count + 1, s.points, s.fail_hits⟩
              (add_pos h0 hstep) (lt_add_of_pos_right _ hstep)
            exact ⟨hlt.le.trans this.1, this.2.1, this.2.2.1, this.2.2.2⟩
          | some m =>
            dsimp only
            have hm1 : 1 < m := multiplier_gt_one P m hm
            have hcm : s.current_v < s.current_v * m := by
              calc s.current_v = s.current_v * 1 := (mul_one _).symm
                _ < s.current_v * m := by
                    exact mul_lt_mul_of_pos_left hm1 h0
            have := ih ⟨s.current_v, s.current_v * m,
              s.run_count + 1, s.points, s.fail_hits⟩ (h0.trans hcm) hcm
            exact ⟨hlt.le.trans this.1, this.2.1, this.2.2.1, this.2.2.2⟩
        · dsimp only
          exact ⟨le_refl _, h0, hlt, hlt⟩
    · rw [if_neg hrun]
      exact ⟨le_refl _, h0, hlt, trivial⟩

/-- The satellite-sampling loop never touches the bracket: `v_low` and
`v_high` are exactly preserved on every path. -/
theorem sampleLoop_bracket (P : Params) (oracle : ℕ → SimStep) (tgt : ℕ) (sstep : ℚ) :
    ∀ fuel (s : SampSt),
      (sampleLoop P oracle tgt sstep fuel s).1.v_low = s.v_low
    ∧ (sampleLoop P oracle tgt sstep fuel s).1.v_high = s.v_high := by
  intro fuel
  induction fuel with
  | zero => intro s; exact ⟨rfl, rfl⟩
  | succ f ih =>
    intro s
    dsimp only [sampleLoop]
    by_cases h1 : s.samples_collected < tgt ∧ s.run_count < P.MAX_TOTAL_RUNS
    · rw [if_pos h1]
      by_cases h2 : s.toggle % 2 = 0
      · rw [if_pos h2]
        by_cases h3 : s.down_v ≤ s.v_low
        · rw [if_pos h3]
          exact ih _
        · rw [if_neg h3]
          by_cases h4 : round6 s.down_v ∈ s.tried
          · rw [if_pos h4]
            exact ih _
          · rw [if_neg h4]
            cases ho : oracle (s.run_count + 1) with
            | fail =>
              dsimp only
              exact ih _
            | result ispen vr =>
              dsimp only
              by_cases h5 : ispen = true ∧ 0 < vr ∧ vr ≤ P.VR_FILTER_THRESHOLD
              · rw [if_pos h5]
                exact ih _
              · rw [if_neg h5]
                exact ih _
      · rw [if_neg h2]
        by_cases h4 : round6 s.up_v ∈ s.tried
        · rw [if_pos h4]
          exact ih _
        · rw [if_neg h4]
          cases ho : oracle (s.run_count + 1) with
          | fail =>
            dsimp only
            exact ih _
          | result ispen vr =>
            dsimp only
            by_cases h5 : ispen = true ∧ 0 < vr ∧ vr ≤ P.VR_FILTER_THRESHOLD
            · rw [if_pos h5]
              exact ih _
            · rw [if_neg h5]
              exact ih _
    · rw [if_neg h1]
      exact ⟨rfl, rfl⟩

/-- Driven by the real `run_simulation`, the expansion loop's
simulation-failure branches are never taken: the failure counter is
unchanged. -/
theorem expandLoop_fail_hits (P : Params) (envs : ℕ → SimEnv)
    (parses : ℕ → Bool × ℚ) :
    ∀ fuel (s : ExpSt),
      (expandLoop P (solverOracle envs parses) fuel s).1.fail_hits = s.fail_hits := by
  intro fuel
  induction fuel with
  | zero => intro s; rfl
  | succ f ih =>
    intro s
    dsimp only [expandLoop]
    by_cases hrun : s.run_count < P.MAX_TOTAL_RUNS
    · rw [if_pos hrun]
      cases ho : solverOracle envs parses (s.run_count + 1) with
      | fail => exact absurd ho (solverOracle_ne_fail envs parses _)
      | result ispen vr =>
        cases ispen
        · dsimp only
          exact ih _
        · rfl
    · rw [if_neg hrun]

/-- Driven by the real `run_simulation`, the sampling loop's
simulation-failure branch is never taken. -/
theorem sampleLoop_fail_hits (P : Params) (envs : ℕ → SimEnv)
    (parses : ℕ → Bool × ℚ) (tgt : ℕ) (sstep : ℚ) :
    ∀ fuel (s : SampSt),
      (sampleLoop P (solverOracle envs parses) tgt sstep fuel s).1.fail_hits
        = s.fail_hits := by
  intro fuel
  induction fuel with
  | zero => intro s; rfl
  | succ f ih =>
    intro s
    dsimp only [sampleLoop]
    by_cases h1 : s.samples_collected < tgt ∧ s.run_count < P.MAX_TOTAL_RUNS
    · rw [if_pos h1]
      by_cases h2 : s.toggle % 2 = 0
      · rw [if_pos h2]
        by_cases h3 : s.down_v ≤ s.v_low
        · rw [if_pos h3]
          exact ih _
        · rw [if_neg h3]
          by_cases h4 : round6 s.down_v ∈ s.tried
          · rw [if_pos h4]
            exact ih _
          · rw [if_neg h4]
            cases ho : solverOracle envs parses (s.run_count + 1) with
            | fail => exact absurd ho (solverOracle_ne_fail envs parses _)
            | result ispen vr =>
              dsimp only
              by_cases h5 : ispen = true ∧ 0 < vr ∧ vr ≤ P.VR_FILTER_THRESHOLD
              · rw [if_pos h5]
                exact ih _
              · rw [if_neg h5]
                exact ih _
      · rw [if_neg h2]
        by_cases h4 : round6 s.up_v ∈ s.tried
        · rw [if_pos h4]
          exact ih _
        · rw [if_neg h4]
          cases ho : solverOracle envs parses (s.run_count + 1) with
          | fail => exact absurd ho (solverOracle_ne_fail envs parses _)
          | result ispen vr =>
            dsimp only
            by_cases h5 : ispen = true ∧ 0 < vr ∧ vr ≤ P.VR_FILTER_THRESHOLD
            · rw [if_pos h5]
              exact ih _
            · rw [if_neg h5]
              exact ih _
    · rw [if_neg h1]

/-- Driven by the real `run_simulation`, one bisection trial never takes
the simulation-failure branch. -/
theorem bisectStep_fail_hits (P : Params) (envs : ℕ → SimEnv)
    (parses : ℕ → Bool × ℚ) (s : BiSt) :
    (bisectStep P (solverOracle envs parses) s).fail_hits = s.fail_hits := by
  dsimp only [bisectStep]
  cases ho : solverOracle envs parses (s.run_count + 1) with
  | fail => exact absurd ho (solverOracle_ne_fail envs parses _)
  | result b vr => cases b <;> rfl

/-- Driven by the real `run_simulation`, the bisection loop's
simulation-failure branch is never taken. -/
theorem bisectLoop_fail_hits (P : Params) (envs : ℕ → SimEnv)
    (parses : ℕ → Bool × ℚ) :
    ∀ fuel (s : BiSt),
      (bisectLoop P (solverOracle envs parses) fuel s).fail_hits = s.fail_hits := by
  intro fuel
  induction fuel with
  | zero => intro s; rfl
  | succ f ih =>
    intro s
    rw [bisectLoop]
    split_ifs with h1 h2
    · rfl
    · exact (ih _).trans (bisectStep_fail_hits P envs parses s)
    · rfl

/-! ### Theorems about the claims -/

/-- Claim C1: the shipped `config.py` defines none of the names the
solver reads (it defines `BINARY_SEARCH_MAX_ITER`, `MIN_DATA_POINTS`,
`LAMBERT_JONAS_BOUNDS`, `VELOCITY_STEP` instead), so
`find_v50_for_config` raises `AttributeError` at its expansion-loop
condition (`config.MAX_TOTAL_RUNS`) before any simulation is prepared or
run; `main` catches the exception and appends a `critical_failure` row,
so all five per-configuration records are `critical_failure` and zero
experiments are ever run. -/
theorem claim1_shipped_config_critical_failure :
    preludeOutcome find_v50_prelude 0 = (some "MAX_TOTAL_RUNS", 0)
  ∧ "MAX_TOTAL_RUNS" ∉ configDefinedNames
  ∧ "EXPONENTIAL_STEP" ∉ configDefinedNames
  ∧ "VR_FILTER_THRESHOLD" ∉ configDefinedNames
  ∧ "MAX_BISECTION_ITERATIONS" ∉ configDefinedNames
  ∧ "MIN_DATAPOINTS_FOR_FIT" ∉ configDefinedNames
  ∧ "FIT_BOUNDS" ∉ configDefinedNames
  ∧ "INITIAL_GUESS" ∉ configDefinedNames
  ∧ "TEMPLATE_FILE" ∉ configDefinedNames
  ∧ "BINARY_SEARCH_MAX_ITER" ∈ configDefinedNames
  ∧ "MIN_DATA_POINTS" ∈ configDefinedNames
  ∧ "LAMBERT_JONAS_BOUNDS" ∈ configDefinedNames
  ∧ "VELOCITY_STEP" ∈ configDefinedNames
  ∧ mainStatuses = ["critical_failure", "critical_failure", "critical_failure",
      "critical_failure", "critical_failure"]
  ∧ mainStatuses.length = THICKNESS_CONFIGS.length
  ∧ mainTotalSims = 0 := by
  decide

/-- Claim C9 (counterexample): the deduplication before fitting is by
`(impact, residual)` pair equality, not by impact velocity alone — on the
accumulated list `[(590, 50), (590, 60)]` the deduplicated, sorted set
still contains two points with impact velocity 590. -/
theorem claim9_counterexample :
    dedupSort [(590, 50), (590, 60)] = [(590, 50), (590, 60)]
  ∧ ¬ ((dedupSort [(590, 50), (590, 60)]).countP
        (fun p => decide (p.1 = (590 : ℚ))) ≤ 1) := by
  constructor
  · rfl
  · decide

/-- Claim C9 (amended): the point set prepared before fitting is
deduplicated by `(impact_velocity, residual_velocity)` pair equality —
it contains each pair at most once and has exactly the members of the
accumulated list. -/
theorem claim9_amended_dedup_by_pair (pts : List (ℚ × ℚ)) :
    List.Nodup (dedupSort pts) ∧ ∀ p : ℚ × ℚ, p ∈ dedupSort pts ↔ p ∈ pts := by
  have hperm : List.Perm (dedupSort pts) pts.dedup := List.perm_insertionSort lexLe pts.dedup
  constructor
  · exact hperm.nodup_iff.mpr pts.nodup_dedup
  · intro p
    rw [hperm.mem_iff, List.mem_dedup]

/-- Claim C8: the dynamically computed upper bound for `VBL` equals
`min(static_upper, 0.99 * min(observed impact velocities))`, and for
nonnegative observed velocities it is at most the smallest of them. -/
theorem claim8_fit_bound_safety (staticUpper x0 : ℚ) (xs : List ℚ)
    (h0 : 0 ≤ listMin x0 xs) :
    vbl_upper_bound staticUpper x0 xs = min staticUpper (listMin x0 xs * (99 / 100))
  ∧ vbl_upper_bound staticUpper x0 xs ≤ listMin x0 xs := by
  refine ⟨rfl, ?_⟩
  calc vbl_upper_bound staticUpper x0 xs ≤ listMin x0 xs * (99 / 100) := min_le_right _ _
    _ ≤ listMin x0 xs * 1 := by
        apply mul_le_mul_of_nonneg_left _ h0
        norm_num
    _ = listMin x0 xs := mul_one _

/-- Witness for the C8 theorem at `static_upper = 800`,
velocities `[600, 700]`. -/
theorem claim8_witness :
    vbl_upper_bound 800 600 [700] = min 800 (listMin 600 [700] * (99 / 100))
  ∧ vbl_upper_bound 800 600 [700] ≤ listMin 600 [700] :=
  claim8_fit_bound_safety 800 600 [700] (by decide)

/-- Claim C2: for every outcome sequence, the bracket is well-formed from
the first observed penetration on and never widens afterwards: expansion
only raises `v_low` and hands over `v_low < v_high`; sampling leaves the
bracket untouched; each bisection trial keeps `v_low < v_high`, can only
raise `v_low` on a `NotPenetrated` outcome, can only lower `v_high` on a
`Penetrated` outcome, and the failed-simulation branch also only shrinks
the bracket; the whole bisection loop never widens it. -/
theorem claim2_bracket_invariant (P : Params) (oracle : ℕ → SimStep)
    (fe fs fb tgt : ℕ) (sstep : ℚ) (ss : SampSt) (bs : BiSt)
    (hstep : 0 < P.EXPONENTIAL_STEP) (hinit : 0 < P.INITIAL_VELOCITY)
    (hb : bs.v_low < bs.v_high) :
    expBracketOK (expandLoop P oracle fe (expInit P))
  ∧ (expInit P).v_low ≤ (expandLoop P oracle fe (expInit P)).1.v_low
  ∧ (sampleLoop P oracle tgt sstep fs ss).1.v_low = ss.v_low
  ∧ (sampleLoop P oracle tgt sstep fs ss).1.v_high = ss.v_high
  ∧ bs.v_low ≤ (bisectStep P oracle bs).v_low
  ∧ (bisectStep P oracle bs).v_high ≤ bs.v_high
  ∧ (bisectStep P oracle bs).v_low < (bisectStep P oracle bs).v_high
  ∧ bisectStepDir P oracle bs
  ∧ bs.v_low ≤ (bisectLoop P oracle fb bs).v_low
  ∧ (bisectLoop P oracle fb bs).v_high ≤ bs.v_high
  ∧ (bisectLoop P oracle fb bs).v_low < (bisectLoop P oracle fb bs).v_high := by
  have hexp := expandLoop_inv P oracle hstep fe (expInit P) hinit hinit
  have hsamp := sampleLoop_bracket P oracle tgt sstep fs ss
  have hstepb := bisectStep_bracket P oracle bs hb
  have hloop := bisectLoop_bracket P oracle fb bs hb
  exact ⟨hexp.2.2.2, hexp.1, hsamp.1, hsamp.2, hstepb.1, hstepb.2.1, hstepb.2.2.1,
    hstepb.2.2.2, hloop.1, hloop.2.1, hloop.2.2⟩

/-- Witness for the C2 theorem on a concrete run: parameters `P5`, the
never-penetrating oracle, a sampling state with bracket `[300, 600]`, and
a bisection state with bracket `[900, 1000]`. -/
theorem claim2_witness :
    expBracketOK (expandLoop P5 oracleNP 3 (expInit P5))
  ∧ (expInit P5).v_low ≤ (expandLoop P5 oracleNP 3 (expInit P5)).1.v_low
  ∧ (sampleLoop P5 oracleNP 3 10 3
      (⟨300, 600, [], 2, 0, 590, 610, [600], 0, 0⟩ : SampSt)).1.v_low
      = (⟨300, 600, [], 2, 0, 590, 610, [600], 0, 0⟩ : SampSt).v_low
  ∧ (sampleLoop P5 oracleNP 3 10 3
      (⟨300, 600, [], 2, 0, 590, 610, [600], 0, 0⟩ : SampSt)).1.v_high
      = (⟨300, 600, [], 2, 0, 590, 610, [600], 0, 0⟩ : SampSt).v_high
  ∧ (⟨900, 1000, [], 0, 0, 0⟩ : BiSt).v_low
      ≤ (bisectStep P5 oracleNP ⟨900, 1000, [], 0, 0, 0⟩).v_low
  ∧ (bisectStep P5 oracleNP ⟨900, 1000, [], 0, 0, 0⟩).v_high
      ≤ (⟨900, 1000, [], 0, 0, 0⟩ : BiSt).v_high
  ∧ (bisectStep P5 oracleNP ⟨900, 1000, [], 0, 0, 0⟩).v_low
      < (bisectStep P5 oracleNP ⟨900, 1000, [], 0, 0, 0⟩).v_high
  ∧ bisectStepDir P5 oracleNP ⟨900, 1000, [], 0, 0, 0⟩
  ∧ (⟨900, 1000, [], 0, 0, 0⟩ : BiSt).v_low
      ≤ (bisectLoop P5 oracleNP 3 ⟨900, 1000, [], 0, 0, 0⟩).v_low
  ∧ (bisectLoop P5 oracleNP 3 ⟨900, 1000, [], 0, 0, 0⟩).v_high
      ≤ (⟨900, 1000, [], 0, 0, 0⟩ : BiSt).v_high
  ∧ (bisectLoop P5 oracleNP 3 ⟨900, 1000, [], 0, 0, 0⟩).v_low
      < (bisectLoop P5 oracleNP 3 ⟨900, 1000, [], 0, 0, 0⟩).v_high :=
  claim2_bracket_invariant P5 oracleNP 3 3 3 3 10
    ⟨300, 600, [], 2, 0, 590, 610, [600], 0, 0⟩ ⟨900, 1000, [], 0, 0, 0⟩
    (by norm_num [P5]) (by norm_num [P5]) (by norm_num)

/-- In the stuck sampling configuration — down candidate at the
non-penetration floor, sample target not yet met, run budget remaining —
every iteration re-selects the rejected downward direction (the rejection
branch advances `direction_toggle` by two, keeping it even), so the loop
never exits, for any amount of fuel. -/
theorem sampleLoop_stuck4 :
    ∀ fuel t, t % 2 = 0 →
      (sampleLoop P4 oracle4 3 1 fuel
        ⟨300, 301, [(301, 50)], 2, 1, 300, 302, [301], t, 0⟩).2 = false := by
  intro fuel
  induction fuel with
  | zero => intro t ht; rfl
  | succ f ih =>
    intro t ht
    dsimp only [sampleLoop, P4]
    rw [if_pos (by norm_num : (1 : ℕ) < 3 ∧ (2 : ℕ) < 100)]
    rw [if_pos ht]
    rw [if_pos (by norm_num : (300 : ℚ) ≤ 300)]
    exact ih (t + 2) (by omega)

/-- Claim C4 (the code violates it): with initial velocity 300, linear
step 1 and the outcome sequence "no penetration at run 1, penetration
with residual 50 at run 2", the whole solver never returns — after the
bracket `[300, 301]` is found, the sampling step is `max(1, 1/5) = 1`,
the first downward candidate `300` sits at `v_low`, and the rejection
branch loops forever while the sample target is unmet and the run budget
(2 of 100 runs used) remains. -/
theorem claim4_sampling_divergence :
    ∀ sampleFuel (fitO : List (ℚ × ℚ) → FitOutcome),
      solve P4 oracle4 fitO sampleFuel = none := by
  intro fuel fitO
  have hexp : expandLoop P4 oracle4 (P4.MAX_TOTAL_RUNS + 1) (expInit P4)
      = (⟨300, 301, 2, [(301, 50)], 0⟩, some 301) := by
    norm_num [expandLoop, expInit, P4, oracle4, multiplier]
  have hsp : searchPart P4 oracle4 fuel = none := by
    unfold searchPart
    rw [hexp]
    dsimp only
    norm_num [P4, validCount, round6, round_eq]
    rw [show (⟨300, 1, 1, 100, 100, 3, 20, 5, 5⟩ : Params) = P4 from rfl]
    rcases hq : sampleLoop P4 oracle4 3 1 fuel
        ⟨300, 301, [(301, 50)], 2, 1, 300, 302, [301], 0, 0⟩ with ⟨st, b⟩
    have hb := sampleLoop_stuck4 fuel 0 (by norm_num)
    rw [hq] at hb
    dsimp only at hb
    rw [hb]
  unfold solve
  rw [hsp]
  rfl

/-- Concrete run: with a run ceiling of 3 and no penetration ever
observed, the solver returns the no-penetration failure record. -/
theorem find_v50_run_P6 :
    find_v50_run P6 oracleNP fitO0 200 = some noPenRec6 := by
  have hexp : expandLoop P6 oracleNP (P6.MAX_TOTAL_RUNS + 1) (expInit P6)
      = (⟨1200, 2400, 3, [], 0⟩, none) := by
    norm_num [expandLoop, expInit, P6, oracleNP, multiplier]
  unfold find_v50_run solve searchPart
  rw [hexp]
  rfl

/-- Concrete run: bracket `[300, 600]` found at run 2, one valid point,
run ceiling 3 reached during sampling, bisection budget already
exhausted, one point < 5 required — the insufficient-data record. -/
theorem searchPart_P7 :
    searchPart P7 oracle7 2 = some (.done 300 600 3 [(600, 50)]) := by
  have hexp : expandLoop P7 oracle7 (P7.MAX_TOTAL_RUNS + 1) (expInit P7)
      = (⟨300, 600, 2, [(600, 50)], 0⟩, some 600) := by
    norm_num [expandLoop, expInit, P7, oracle7, multiplier]
  have hsamp : sampleLoop P7 oracle7 3 10 2
      ⟨300, 600, [(600, 50)], 2, 1, 590, 610, [600], 0, 0⟩
      = (⟨300, 600, [(600, 50)], 3, 1, 580, 610, [590, 600], 1, 0⟩, true) := by
    norm_num [sampleLoop, P7, oracle7, round6, round_eq]
  have hbis : bisectLoop P7 oracle7 21
      ⟨300, 600, [(600, 50)], 3, 0, 0⟩ = ⟨300, 600, [(600, 50)], 3, 0, 0⟩ := by
    norm_num [bisectLoop, P7]
  unfold searchPart
  rw [hexp]
  dsimp only
  norm_num [P7, validCount, round6, round_eq]
  rw [show (⟨300, 2, 50, 3, 100, 3, 20, 5, 5⟩ : Params) = P7 from rfl]
  rw [hsamp]
  dsimp only
  rw [hbis]

/-- Concrete run: the full solver result in the insufficient-data
scenario. -/
theorem find_v50_run_P7 :
    find_v50_run P7 oracle7 fitO0 2 = some insufRec7 := by
  unfold find_v50_run solve
  rw [searchPart_P7]
  dsimp only [Option.map, fitStage]
  norm_num [filterVr, dedupSort, lexLe, P7, insufRec7]

/-- Claim C6 (counterexample): the `failed` record returned when
expansion ends without ever observing a penetration contains only
`status`, `reason` and `runs` — it has no `v_low`, `v_high` or
`points_used` field, contradicting the claimed field list. -/
theorem claim6_counterexample :
    find_v50_run P6 oracleNP fitO0 200 = some noPenRec6
  ∧ lookupKey noPenRec6 "status" = some (.str "failed")
  ∧ hasKey noPenRec6 "reason" = true
  ∧ hasKey noPenRec6 "runs" = true
  ∧ hasKey noPenRec6 "v_low" = false
  ∧ hasKey noPenRec6 "v_high" = false
  ∧ hasKey noPenRec6 "points_used" = false :=
  ⟨find_v50_run_P6, by decide, by decide, by decide, by decide, by decide, by decide⟩

/-- Claim C6 (amended): every `failed` record contains `reason` and
`runs`; the failed records produced after a bracket was established
(insufficient data, fit failure, fit exception) also contain `v_low`,
`v_high` and `points_used`, while the no-penetration record has exactly
the keys `status`, `reason`, `runs`. -/
theorem claim6_amended_failed_record_fields (P : Params) (oracle : ℕ → SimStep)
    (fitO : List (ℚ × ℚ) → FitOutcome) (fuel : ℕ) (r : PyDict)
    (h : find_v50_run P oracle fitO fuel = some r)
    (hf : lookupKey r "status" = some (.str "failed")) :
    hasKey r "reason" = true ∧ hasKey r "runs" = true
  ∧ (r.map Prod.fst = ["status", "reason", "runs"]
     ∨ r.map Prod.fst = ["status", "reason", "v_low", "v_high", "runs", "points_used"]) := by
  unfold find_v50_run at h
  cases hs : solve P oracle fitO fuel with
  | none =>
    rw [hs] at h
    exact absurd h (by simp)
  | some res =>
    rw [hs] at h
    simp only [Option.map_some'] at h
    injection h with h2
    subst h2
    cases res with
    | noPenetration runs => exact ⟨rfl, rfl, Or.inl rfl⟩
    | insufficientData lo hi runs pts => exact ⟨rfl, rfl, Or.inr rfl⟩
    | fitSuccess V50 a p rmse lo hi runs pts =>
      rw [show lookupKey (renderResult (SolveResult.fitSuccess V50 a p rmse lo hi runs pts))
            "status" = some (.str "success") from rfl] at hf
      exact absurd hf (by decide)
    | fitFailed lo hi runs pts => exact ⟨rfl, rfl, Or.inr rfl⟩
    | fitError msg lo hi runs pts =>
      refine ⟨?_, rfl, Or.inr rfl⟩
      rfl

/-- Witness for the amended C6 theorem, on the concrete no-penetration
run. -/
theorem claim6_witness :
    hasKey noPenRec6 "reason" = true ∧ hasKey noPenRec6 "runs" = true
  ∧ (noPenRec6.map Prod.fst = ["status", "reason", "runs"]
     ∨ noPenRec6.map Prod.fst
        = ["status", "reason", "v_low", "v_high", "runs", "points_used"]) :=
  claim6_amended_failed_record_fields P6 oracleNP fitO0 200 noPenRec6
    find_v50_run_P6 (by decide)

/-- Claim C7 (counterexample): in the insufficient-data scenario the
record's `reason` is the string `'Not enough data points for fitting'`,
not `'insufficient_data'`. -/
theorem claim7_counterexample :
    find_v50_run P7 oracle7 fitO0 2 = some insufRec7
  ∧ lookupKey insufRec7 "status" = some (.str "failed")
  ∧ lookupKey insufRec7 "reason" = some (.str "Not enough data points for fitting")
  ∧ ¬ lookupKey insufRec7 "reason" = some (.str "insufficient_data") :=
  ⟨find_v50_run_P7, by decide, by decide, by decide⟩

/-- Claim C7 (amended): when fewer than the configured minimum number of
points remain after filtering, the solver returns — for every fit oracle,
so no fit is attempted — a record with status `'failed'`, reason
`'Not enough data points for fitting'`, and `v_low`/`v_high` populated
from the search. -/
theorem claim7_amended_insufficient_data (P : Params) (oracle : ℕ → SimStep)
    (fitO : List (ℚ × ℚ) → FitOutcome) (fuel : ℕ) (lo hi : ℚ) (runs : ℕ)
    (pts : List (ℚ × ℚ))
    (h : searchPart P oracle fuel = some (.done lo hi runs pts))
    (hcount : (filterVr P (dedupSort pts)).length < P.MIN_DATAPOINTS_FOR_FIT) :
    solve P oracle fitO fuel = some (.insufficientData lo hi runs (dedupSort pts))
  ∧ find_v50_run P oracle fitO fuel
      = some (renderResult (.insufficientData lo hi runs (dedupSort pts)))
  ∧ lookupKey (renderResult (.insufficientData lo hi runs (dedupSort pts))) "status"
      = some (.str "failed")
  ∧ lookupKey (renderResult (.insufficientData lo hi runs (dedupSort pts))) "reason"
      = some (.str "Not enough data points for fitting")
  ∧ lookupKey (renderResult (.insufficientData lo hi runs (dedupSort pts))) "v_low"
      = some (.num lo)
  ∧ lookupKey (renderResult (.insufficientData lo hi runs (dedupSort pts))) "v_high"
      = some (.num hi) := by
  have hsolve : solve P oracle fitO fuel
      = some (.insufficientData lo hi runs (dedupSort pts)) := by
    unfold solve
    rw [h]
    simp only [Option.map_some']
    unfold fitStage
    dsimp only
    rw [if_pos hcount]
  refine ⟨hsolve, ?_, rfl, rfl, rfl, rfl⟩
  unfold find_v50_run
  rw [hsolve]
  rfl

/-- Witness for the amended C7 theorem, on the concrete
insufficient-data run. -/
theorem claim7_witness :
    solve P7 oracle7 fitO0 2
      = some (.insufficientData 300 600 3 (dedupSort [(600, 50)]))
  ∧ find_v50_run P7 oracle7 fitO0 2
      = some (renderResult (.insufficientData 300 600 3 (dedupSort [(600, 50)])))
  ∧ lookupKey (renderResult (.insufficientData 300 600 3 (dedupSort [(600, 50)]))) "status"
      = some (.str "failed")
  ∧ lookupKey (renderResult (.insufficientData 300 600 3 (dedupSort [(600, 50)]))) "reason"
      = some (.str "Not enough data points for fitting")
  ∧ lookupKey (renderResult (.insufficientData 300 600 3 (dedupSort [(600, 50)]))) "v_low"
      = some (.num 300)
  ∧ lookupKey (renderResult (.insufficientData 300 600 3 (dedupSort [(600, 50)]))) "v_high"
      = some (.num 600) :=
  claim7_amended_insufficient_data P7 oracle7 fitO0 2 300 600 3 [(600, 50)]
    searchPart_P7 (by norm_num [filterVr, dedupSort, lexLe, P7])

/-- Claim C10: `run_simulation` returns a non-empty dict on every
execution path, so used as the boolean `sim_success` it is always truthy,
the oracle the solver actually runs against never reports a failed run,
and the simulation-failure branches of the expansion, sampling and
bisection phases are unreachable (their failure counters never move). -/
theorem claim10_failure_branches_unreachable (env : SimEnv)
    (envs : ℕ → SimEnv) (parses : ℕ → Bool × ℚ) (k : ℕ) (P : Params)
    (tgt fe fs fb : ℕ) (sstep : ℚ) (es : ExpSt) (ss : SampSt) (bs : BiSt) :
    (run_simulation env).isEmpty = false
  ∧ pyTruthy (run_simulation env) = true
  ∧ solverOracle envs parses k ≠ SimStep.fail
  ∧ (expandLoop P (solverOracle envs parses) fe es).1.fail_hits = es.fail_hits
  ∧ (sampleLoop P (solverOracle envs parses) tgt sstep fs ss).1.fail_hits = ss.fail_hits
  ∧ (bisectLoop P (solverOracle envs parses) fb bs).fail_hits = bs.fail_hits :=
  ⟨run_simulation_nonempty env, run_simulation_truthy env,
   solverOracle_ne_fail envs parses k,
   expandLoop_fail_hits P envs parses fe es,
   sampleLoop_fail_hits P envs parses tgt sstep fs ss,
   bisectLoop_fail_hits P envs parses fb bs⟩

/-- Claim C5 (counterexample): with bracket `[0, 160]` and tolerance 10
(a width-to-tolerance ratio that is an exact power of two) and no
simulation failures, bisection performs 5 trials, exceeding the claimed
bound `ceil(log2(160/10)) = 4` — the loop stops only when the width drops
strictly below the tolerance, so one extra trial runs. -/
theorem claim5_counterexample :
    ceilLog2Q (((160 : ℚ) - 0) / 10) = 4
  ∧ (bisectLoop P5c oracleNP 21 ⟨0, 160, [], 0, 0, 0⟩).iter = 5
  ∧ ¬ ((bisectLoop P5c oracleNP 21 ⟨0, 160, [], 0, 0, 0⟩).iter
        ≤ 0 + ceilLog2Q (((160 : ℚ) - 0) / 10)) := by
  have h1 : ceilLog2Q (((160 : ℚ) - 0) / 10) = 4 := by
    norm_num [ceilLog2Q]
    show Nat.clog 2 16 = 4
    rw [show (16 : ℕ) = 2 ^ 4 by norm_num, Nat.clog_pow 2 4 (by norm_num)]
  have h2 : (bisectLoop P5c oracleNP 21 ⟨0, 160, [], 0, 0, 0⟩).iter = 5 := by
    norm_num [bisectLoop, bisectStep, oracleNP, P5c]
  refine ⟨h1, h2, ?_⟩
  rw [h1, h2]
  norm_num

/-- Claim C5 (amended): for tolerance `t > 0` the bisection loop performs
at most `floor(log2((v_high - v_low)/t)) + 1` trials — which equals
`ceil(log2((v_high - v_low)/t))` except when the ratio is an exact power
of two — before the stop condition holds, with or without simulation
failures (every trial halves the bracket); in all cases it performs at
most `MAX_BISECTION_ITERATIONS` trials; and on the bracket `[900, 1000]`
with tolerance 5 it converges in exactly 5 trials. -/
theorem claim5_amended_bisection_bound (P : Params) (oracle : ℕ → SimStep)
    (fuel : ℕ) (s : BiSt) (htol : 0 < P.CONVERGENCE_TOLERANCE) :
    (bisectLoop P oracle fuel s).iter
      ≤ s.iter + (floorLog2Q ((s.v_high - s.v_low) / P.CONVERGENCE_TOLERANCE) + 1)
  ∧ (bisectLoop P oracle fuel s).iter ≤ max s.iter P.MAX_BISECTION_ITERATIONS
  ∧ (bisectLoop P5 oracle 21 ⟨900, 1000, [], 0, 0, 0⟩).iter = 5 := by
  refine ⟨?_, bisectLoop_iter_le_max P oracle fuel s, ?_⟩
  · have h1 : (s.v_high - s.v_low) / P.CONVERGENCE_TOLERANCE
        < ((⌊(s.v_high - s.v_low) / P.CONVERGENCE_TOLERANCE⌋₊ : ℚ) + 1) :=
      Nat.lt_floor_add_one _
    have h2 : ⌊(s.v_high - s.v_low) / P.CONVERGENCE_TOLERANCE⌋₊ + 1
        ≤ 2 ^ (floorLog2Q ((s.v_high - s.v_low) / P.CONVERGENCE_TOLERANCE) + 1) :=
      Nat.succ_le_of_lt (Nat.lt_pow_succ_log_self (by norm_num) _)
    have h3 : (s.v_high - s.v_low) / P.CONVERGENCE_TOLERANCE
        < (2 : ℚ) ^ (floorLog2Q ((s.v_high - s.v_low) / P.CONVERGENCE_TOLERANCE) + 1) := by
      calc (s.v_high - s.v_low) / P.CONVERGENCE_TOLERANCE
          < ((⌊(s.v_high - s.v_low) / P.CONVERGENCE_TOLERANCE⌋₊ : ℚ) + 1) := h1
        _ ≤ ((2 ^ (floorLog2Q ((s.v_high - s.v_low) / P.CONVERGENCE_TOLERANCE) + 1) : ℕ) : ℚ) := by
            exact_mod_cast h2
        _ = _ := by push_cast; ring
    have hw : s.v_high - s.v_low
        < 2 ^ (floorLog2Q ((s.v_high - s.v_low) / P.CONVERGENCE_TOLERANCE) + 1)
          * P.CONVERGENCE_TOLERANCE := by
      have hmul := mul_lt_mul_of_pos_right h3 htol
      rwa [div_mul_cancel₀ _ (ne_of_gt htol)] at hmul
    exact bisectLoop_iter_upper P oracle fuel _ s hw
  · have hup : (bisectLoop P5 oracle 21 ⟨900, 1000, [], 0, 0, 0⟩).iter ≤ 5 := by
      have h := bisectLoop_iter_upper P5 oracle 21 5 ⟨900, 1000, [], 0, 0, 0⟩
        (by norm_num [P5])
      simpa using h
    have hlo : 5 ≤ (bisectLoop P5 oracle 21 ⟨900, 1000, [], 0, 0, 0⟩).iter := by
      have h := bisectLoop_iter_lower P5 oracle (by norm_num [P5]) 21 5
        ⟨900, 1000, [], 0, 0, 0⟩ (by norm_num [P5]) (by norm_num)
        (by norm_num [P5]) (by norm_num [P5])
      simpa using h
    omega

/-- Witness for the amended C5 theorem, on the Scenario-C bracket
`[900, 1000]` with tolerance 5 and a failure-free oracle. -/
theorem claim5_witness :
    (bisectLoop P5 oracleNP 21 (⟨900, 1000, [], 0, 0, 0⟩ : BiSt)).iter
      ≤ (⟨900, 1000, [], 0, 0, 0⟩ : BiSt).iter
        + (floorLog2Q (((⟨900, 1000, [], 0, 0, 0⟩ : BiSt).v_high
            - (⟨900, 1000, [], 0, 0, 0⟩ : BiSt).v_low) / P5.CONVERGENCE_TOLERANCE) + 1)
  ∧ (bisectLoop P5 oracleNP 21 (⟨900, 1000, [], 0, 0, 0⟩ : BiSt)).iter
      ≤ max (⟨900, 1000, [], 0, 0, 0⟩ : BiSt).iter P5.MAX_BISECTION_ITERATIONS
  ∧ (bisectLoop P5 oracleNP 21 (⟨900, 1000, [], 0, 0, 0⟩ : BiSt)).iter = 5 :=
  claim5_amended_bisection_bound P5 oracleNP 21 ⟨900, 1000, [], 0, 0, 0⟩
    (by norm_num [P5])

/-- Claim C3: for `a > 0`, `p > 0`, `VBL > 0`, the Lambert-Jonas function
returns `a * (Vi^p - VBL^p)^(1/p)` whenever `Vi^p > VBL^p`, returns
exactly 0 for every (nonnegative) `Vi ≤ VBL` without a domain error, and
is strictly increasing in `Vi` on `Vi > VBL`. -/
theorem claim3_lambert_jonas (a p VBL : ℝ) (ha : 0 < a) (hp : 0 < p) (hV : 0 < VBL) :
    (∀ Vi : ℝ, VBL ^ p < Vi ^ p →
        lambert_jonas_func Vi a p VBL = a * (Vi ^ p - VBL ^ p) ^ (1 / p))
  ∧ (∀ Vi : ℝ, 0 ≤ Vi → Vi ≤ VBL → lambert_jonas_func Vi a p VBL = 0)
  ∧ (∀ x y : ℝ, VBL < x → x < y →
        lambert_jonas_func x a p VBL < lambert_jonas_func y a p VBL) := by
  refine ⟨?_, ?_, ?_⟩
  · intro Vi h
    unfold lambert_jonas_func
    rw [if_pos (sub_pos.mpr h)]
  · intro Vi h0 hle
    unfold lambert_jonas_func
    rw [if_neg]
    rw [not_lt, sub_nonpos]
    exact Real.rpow_le_rpow h0 hle hp.le
  · intro x y hVx hxy
    have hx : VBL ^ p < x ^ p := Real.rpow_lt_rpow hV.le hVx hp
    have hy : VBL ^ p < y ^ p :=
      Real.rpow_lt_rpow hV.le (hVx.trans hxy) hp
    have hxyp : x ^ p < y ^ p :=
      Real.rpow_lt_rpow (hV.le.trans hVx.le) hxy hp
    unfold lambert_jonas_func
    rw [if_pos (sub_pos.mpr hx), if_pos (sub_pos.mpr hy)]
    apply mul_lt_mul_of_pos_left _ ha
    apply Real.rpow_lt_rpow (sub_nonneg.mpr hx.le) _ (by positivity)
    linarith

/-- Witness for the C3 theorem: at `a = 1`, `p = 1`, `VBL = 2`, the value
at `Vi = 1 ≤ VBL` is 0. -/
theorem claim3_witness : lambert_jonas_func 1 1 1 2 = 0 :=
  (claim3_lambert_jonas 1 1 2 one_pos one_pos two_pos).2.1 1 zero_le_one one_le_two

end V50
